import Mathlib

/-
Verification development for the TweetCapture API service (src/main.py).

The service turns a tweet URL into an Instagram-ready image stored in a
MinIO bucket.  We shallowly embed the pure logic of the source file:

* `pyRoundFrac` / `containSize` model Python's banker-rounding `round`
  and PIL's `ImageOps.contain` size computation (exact rationals stand
  in for the float arithmetic of the original, which is exact on the
  integer inputs of interest).
* `process_for_instagram` models the geometry of the function of the
  same name (canvas size, crop box, contain-fit size, paste offsets);
  pixel contents and the dominant-color fill are not needed by any
  property proved here.
* `generate_filename`, `matchStatusAt`, `reSearchStatus` model the key
  generator and its regex `\/(\w+)\/status\/(\d+)` under `re.search`
  (ASCII `\w`/`\d`; the pattern contains no construct that makes
  backtracking observable, so maximal-munch scanning is faithful).
* `upload_to_minio`, `ensure_bucket_exists`, `cleanup_temp_file` and
  the orchestrator `capture_tweet` model the endpoint: external calls
  (browser capture, PIL I/O, MinIO) are oracles supplied in a
  `PipelineEnv`, exceptions are explicit `Except` values, and the
  HTTP outcome distinguishes a normal 200 body from a propagated
  `HTTPException`.
-/

namespace TweetCap

/-- Python's `round` (round-half-to-even) on the nonnegative rational
`num / den`; used by PIL when computing the contained size. -/
def pyRoundFrac (num den : ℕ) : ℕ :=
  if den < 2 * (num % den) then num / den + 1
  else if 2 * (num % den) < den then num / den
  else if num / den % 2 = 0 then num / den else num / den + 1

/-- Size computed by `PIL.ImageOps.contain(img, (tw, th))` for a source of
size `(w, h)`: compare the aspect ratios `w/h` and `tw/th` exactly
(cross-multiplied) and scale the bounded axis with Python rounding. -/
def containSize (w h tw th : ℕ) : ℕ × ℕ :=
  if w * th = h * tw then (tw, th)
  else if h * tw < w * th then (tw, pyRoundFrac (h * tw) w)
  else (pyRoundFrac (w * th) h, th)

/-- Geometry produced by one call of `process_for_instagram` in
src/main.py: canvas dimensions, the dimensions of the (possibly
top-cropped) source the fit operates on, the contained foreground
dimensions, and the paste offsets (Python `//`, i.e. floor division). -/
structure NormResult where
  canvasW : ℕ
  canvasH : ℕ
  srcW : ℕ
  srcH : ℕ
  fgW : ℕ
  fgH : ℕ
  offX : ℤ
  offY : ℤ
deriving DecidableEq

/-- `process_for_instagram(image, out, size_w, size_h, has_media, crop_top)`
from src/main.py, restricted to its geometry.  With media the raw image is
contain-fitted directly; without media the crop box
`(0, crop_top, w, h) if crop_top < h else (0, 0, w, h)` is applied first. -/
def process_for_instagram (w h size_w size_h : ℕ) (has_media : Bool)
    (crop_top : ℕ) : NormResult :=
  if has_media then
    let fg := containSize w h size_w size_h
    { canvasW := size_w, canvasH := size_h, srcW := w, srcH := h,
      fgW := fg.1, fgH := fg.2,
      offX := ((size_w : ℤ) - (fg.1 : ℤ)).fdiv 2,
      offY := ((size_h : ℤ) - (fg.2 : ℤ)).fdiv 2 }
  else
    let ch := if crop_top < h then h - crop_top else h
    let fg := containSize w ch size_w size_h
    { canvasW := size_w, canvasH := size_h, srcW := w, srcH := ch,
      fgW := fg.1, fgH := fg.2,
      offX := ((size_w : ℤ) - (fg.1 : ℤ)).fdiv 2,
      offY := ((size_h : ℤ) - (fg.2 : ℤ)).fdiv 2 }

/-- Python `\w` restricted to ASCII: letters, digits, underscore. -/
def isWordChar (c : Char) : Bool := c.isAlpha || c.isDigit || c = '_'

/-- The literal `/status/` segment of the key generator's regex. -/
def statusLit : List Char := ['/', 's', 't', 'a', 't', 'u', 's', '/']

/-- One anchored attempt of `re` pattern `\/(\w+)\/status\/(\d+)` at the
head of the list.  Since `\w` cannot match `/`, the greedy `\w+` run
needs no backtracking: the maximal word-character run must be followed by
the literal `/status/` and at least one digit; the second group is the
maximal digit run. -/
def matchStatusAt (s : List Char) : Option (List Char × List Char) :=
  match s with
  | [] => none
  | c :: rest =>
    if c = '/' then
      if rest.takeWhile isWordChar = [] then none
      else if statusLit.isPrefixOf
          (rest.drop (rest.takeWhile isWordChar).length) then
        if ((rest.drop (rest.takeWhile isWordChar).length).drop 8).takeWhile
            Char.isDigit = [] then none
        else some (rest.takeWhile isWordChar,
          ((rest.drop (rest.takeWhile isWordChar).length).drop 8).takeWhile
            Char.isDigit)
      else none
    else none

/-- `re.search` for the pattern above: the leftmost position at which the
anchored attempt succeeds. -/
def reSearchStatus : List Char → Option (List Char × List Char)
  | [] => none
  | c :: rest =>
    match matchStatusAt (c :: rest) with
    | some r => some r
    | none => reSearchStatus rest

/-- Fallback of `generate_filename` when no non-empty custom name is given:
regex match on the URL, else the random `tweet_` key. -/
def generate_filename_fallback (tweet_url : List Char)
    (timestamp uuid_str : String) : String :=
  match reSearchStatus tweet_url with
  | some (u, d) =>
      "@" ++ String.mk u ++ "_" ++ String.mk d ++ "_" ++ timestamp ++ ".png"
  | none => "tweet_" ++ timestamp ++ "_" ++ uuid_str.take 8 ++ ".png"

/-- `generate_filename(tweet_url, custom_filename)` from src/main.py.
`timestamp` stands for `datetime.now().strftime("%Y%m%d_%H%M%S")` and
`uuid_str` for `str(uuid.uuid4())` (the code keeps its first 8
characters); Python's `if custom_filename:` is falsy both for `None` and
for the empty string, so an empty custom name takes the fallback path. -/
def generate_filename (tweet_url : List Char) (custom_filename : Option String)
    (timestamp uuid_str : String) : String :=
  match custom_filename with
  | some c =>
      if c = "" then generate_filename_fallback tweet_url timestamp uuid_str
      else c ++ "_" ++ timestamp ++ "_" ++ uuid_str.take 8 ++ ".png"
  | none => generate_filename_fallback tweet_url timestamp uuid_str

/-- The validated host prefix `https://x.com/` as a character list. -/
def httpsXcom : List Char :=
  ['h', 't', 't', 'p', 's', ':', '/', '/', 'x', '.', 'c', 'o', 'm', '/']

/-- Modeled Python exception values that can reach `capture_tweet`'s
`except Exception` clause: FastAPI's `HTTPException` (status code and
detail) or any other exception rendered by its `str`. -/
inductive PyExc where
  | httpExc (status : ℕ) (detail : String)
  | exc (msg : String)
deriving DecidableEq

/-- Python `str(e)`: Starlette's `HTTPException.__str__` renders
`"{status_code}: {detail}"`; for other exceptions the oracle already
supplies the rendered message. -/
def pyStr : PyExc → String
  | .httpExc status detail => toString status ++ ": " ++ detail
  | .exc msg => msg

/-- The MinIO configuration read from environment variables in
src/main.py: the public endpoint used to build returned URLs, and the
bucket name. -/
structure MinioConfig where
  publicEndpoint : String
  bucket : String
deriving DecidableEq

/-- `upload_to_minio(file_path, object_name)` from src/main.py: on
success returns `f"{MINIO_PUBLIC_ENDPOINT}/{MINIO_BUCKET}/{object_name}"`;
an `S3Error` raised by `fput_object` (supplied by the oracle as its
`str`) is caught and re-raised as
`HTTPException(500, "Failed to upload file: " + str(e))`. -/
def upload_to_minio (cfg : MinioConfig) (fput : Except String Unit)
    (object_name : String) : Except PyExc String :=
  match fput with
  | .ok _ =>
      .ok (cfg.publicEndpoint ++ "/" ++ cfg.bucket ++ "/" ++ object_name)
  | .error e => .error (.httpExc 500 ("Failed to upload file: " ++ e))

/-- Oracle for the two object-store calls of `ensure_bucket_exists`: the
result of `bucket_exists` and of `make_bucket`, each either a value or
the `str` of a raised `S3Error`. -/
structure BucketEnv where
  existsResult : Except String Bool
  makeResult : Except String Unit

/-- `ensure_bucket_exists()` from src/main.py: check-then-create, with
any `S3Error` from either call logged and re-raised (the bare `raise`
rethrows the same error). -/
def ensure_bucket_exists (env : BucketEnv) : Except String Unit :=
  match env.existsResult with
  | .error e => .error e
  | .ok true => .ok ()
  | .ok false =>
    match env.makeResult with
    | .error e => .error e
    | .ok _ => .ok ()

/-- Worker for Python `str.replace(old, new)`, structurally recursive on
a fuel that bounds the number of scan steps.  Every step consumes at
least one character of the remaining input (a nonempty matched `old`, or
one unmatched character), so with `fuel = s.length` the fuel never runs
out and the fallback branch is unreachable. -/
def replaceAllAux (old new : List Char) : ℕ → List Char → List Char
  | _, [] => []
  | 0, s => s
  | fuel + 1, c :: cs =>
    if old ≠ [] ∧ old.isPrefixOf (c :: cs) then
      new ++ replaceAllAux old new fuel ((c :: cs).drop old.length)
    else
      c :: replaceAllAux old new fuel cs

/-- Python `str.replace(old, new)`: replace every non-overlapping
occurrence of `old`, scanning left to right.  (At the one call site of
src/main.py `old` is the fixed literal `"storage"`.) -/
def replaceAll (old new s : List Char) : List Char :=
  replaceAllAux old new s.length s

/-- `s.replace(old, new)` on `String`s. -/
def pyReplaceStr (s old new : String) : String :=
  String.mk (replaceAll old.data new.data s.data)

/-- Request model of `POST /capture` (Pydantic `TweetCaptureRequest` in
src/main.py).  Fields that only parametrize the external capture engine
are carried for fidelity but are not otherwise interpreted. -/
structure TweetCaptureRequest where
  url : List Char
  mode : ℕ := 3
  night_mode : ℕ := 0
  lang : String := "en"
  show_parent_tweets : Bool := false
  show_parent_limit : ℤ := -1
  show_mentions : ℕ := 0
  radius : ℕ := 15
  scale : ℚ := 1
  wait_time : ℚ := 5
  hide_photos : Bool := false
  hide_videos : Bool := false
  hide_gifs : Bool := false
  hide_quotes : Bool := false
  hide_link_previews : Bool := false
  hide_all_medias : Bool := false
  filename : Option String := none
  crop_top : ℕ := 10
deriving DecidableEq

/-- Response model `TweetCaptureResponse` of src/main.py, with the same
field defaults (`None`). -/
structure TweetCaptureResponse where
  success : Bool
  message : String
  file_url : Option String := none
  filename : Option String := none
  file_size : Option ℕ := none
  processing_time : Option ℚ := none
deriving DecidableEq

/-- Transport-level outcome of one request: a normal HTTP 200 carrying
the response model, or a propagated `HTTPException`. -/
inductive HttpResult where
  | ok (body : TweetCaptureResponse)
  | httpError (status : ℕ) (detail : String)
deriving DecidableEq

/-- Oracle for one pipeline invocation: the values produced by
`tempfile`/`datetime`/`uuid` and the outcomes of the three external
calls (`tweet_capture.screenshot`, PIL image processing, `fput_object`),
each either success or the `str` of the raised exception; plus the size
reported for the final file and the elapsed wall-clock seconds. -/
structure PipelineEnv where
  tmpDir : String
  timestamp : String
  uuidName : String
  tempHex : String
  finalHex : String
  captureResult : Except String Unit
  processResult : Except String Unit
  uploadResult : Except String Unit
  fileSize : ℕ
  elapsed : ℚ

/-- Observable trace of one `capture_tweet` invocation: the HTTP outcome,
the paths handed to `background_tasks.add_task(cleanup_temp_file, ...)`
in order, the `has_media` argument computed for the normalizer (when that
point is reached), and the generated object name. -/
structure Invocation where
  response : HttpResult
  cleanupTasks : List String
  hasMediaArg : Option Bool
  objectName : String
deriving DecidableEq

/-- The `has_media` decision of `capture_tweet` (src/main.py lines
229-235), verbatim. -/
def has_media (req : TweetCaptureRequest) : Bool :=
  !req.hide_all_medias &&
    (!req.hide_photos || !req.hide_videos || !req.hide_gifs ||
      !req.hide_quotes || !req.hide_link_previews)

/-- The spec's consistent characterization of media visibility: the
hide-all flag is off and not every individual media-hide flag is set. -/
def mediaVisibleSpec (req : TweetCaptureRequest) : Bool :=
  !req.hide_all_medias &&
    !(req.hide_photos && req.hide_videos && req.hide_gifs &&
      req.hide_quotes && req.hide_link_previews)

/-- The C3 claim's primary phrasing: has_media is true unless the
all-media-hide flag is set AND every individual media-hide flag is also
set. -/
def hasMediaClaimedC3 (req : TweetCaptureRequest) : Bool :=
  !(req.hide_all_medias &&
    (req.hide_photos && req.hide_videos && req.hide_gifs &&
      req.hide_quotes && req.hide_link_previews))

/-- The `POST /capture` handler `capture_tweet` of src/main.py as a
function of the request and the oracle.  The single `except Exception`
spans the whole body, so any exception raised inside — including the
`HTTPException(500, ...)` raised by `upload_to_minio`, which subclasses
`Exception` — is converted into an HTTP 200 body with `success=False`
and message `"Error: " + str(e)`; no path of the handler produces
`HttpResult.httpError`.  A cleanup task is registered for the temp
capture path on every exit, and for the final path once it has been
assigned (that is, after the screenshot call returned). -/
def capture_tweet (cfg : MinioConfig) (req : TweetCaptureRequest)
    (env : PipelineEnv) : Invocation :=
  let object_name :=
    generate_filename req.url req.filename env.timestamp env.uuidName
  let temp_file_path := env.tmpDir ++ "/temp_" ++ env.tempHex ++ ".png"
  match env.captureResult with
  | .error e =>
      { response := .ok
          { success := false, message := "Error: " ++ e,
            processing_time := some env.elapsed },
        cleanupTasks := [temp_file_path],
        hasMediaArg := none, objectName := object_name }
  | .ok _ =>
      let final_file_path := env.tmpDir ++ "/" ++ env.finalHex ++ ".png"
      match env.processResult with
      | .error e =>
          { response := .ok
              { success := false, message := "Error: " ++ e,
                processing_time := some env.elapsed },
            cleanupTasks := [temp_file_path, final_file_path],
            hasMediaArg := some (has_media req), objectName := object_name }
      | .ok _ =>
          match upload_to_minio cfg env.uploadResult object_name with
          | .error ex =>
              { response := .ok
                  { success := false,
                    message := "Error: " ++ pyStr ex,
                    processing_time := some env.elapsed },
                cleanupTasks := [temp_file_path, final_file_path],
                hasMediaArg := some (has_media req),
                objectName := object_name }
          | .ok file_url =>
              { response := .ok
                  { success := true,
                    message := "Tweet captured successfully",
                    file_url :=
                      some (pyReplaceStr file_url "storage" "storage-api"),
                    filename := some object_name,
                    file_size := some env.fileSize,
                    processing_time := some env.elapsed },
                cleanupTasks := [temp_file_path, final_file_path],
                hasMediaArg := some (has_media req),
                objectName := object_name }

/-- `cleanup_temp_file(file_path)` from src/main.py, acting on a file
system modeled by its existence predicate, with `removeFails` the oracle
for an `os.remove` failure.  Returns the new file system, the performed
deletions (at most the single path, and only when it existed and removal
did not fail) and the logged warnings; the function is total, modeling
that the inner `except Exception` lets no error escape. -/
def cleanup_temp_file (removeFails : String → Bool) (p : String)
    (fs : String → Bool) : (String → Bool) × List String × List String :=
  if fs p then
    if removeFails p then (fs, [], ["Failed to clean up " ++ p])
    else (fun q => if q = p then false else fs q, [p], [])
  else (fs, [], [])

/-- Running the deferred cleanup tasks in registration order,
accumulating deletions and warnings. -/
def runCleanup (removeFails : String → Bool) :
    List String → (String → Bool) →
      (String → Bool) × List String × List String
  | [], fs => (fs, [], [])
  | p :: rest, fs =>
    let r1 := cleanup_temp_file removeFails p fs
    let r2 := runCleanup removeFails rest r1.1
    (r2.1, r1.2.1 ++ r2.2.1, r1.2.2 ++ r2.2.2)

/-- Concrete fixtures used by witnesses and counterexamples. -/
def cfgLocal : MinioConfig :=
  { publicEndpoint := "http://localhost:9000", bucket := "tweetcaptures" }

def cfgStorage : MinioConfig :=
  { publicEndpoint := "http://storage:9000", bucket := "tweetcaptures" }

def reqBase : TweetCaptureRequest :=
  { url := "https://x.com/user/status/123".data }

def reqAllHide : TweetCaptureRequest :=
  { url := "https://x.com/user/status/123".data, hide_all_medias := true }

def reqStorageName : TweetCaptureRequest :=
  { url := "https://x.com/user/status/123".data,
    filename := some "storage_x" }

def envOk : PipelineEnv :=
  { tmpDir := "/tmp", timestamp := "20240101_120000",
    uuidName := "abcd1234-ef56-7890", tempHex := "aa", finalHex := "bb",
    captureResult := .ok (), processResult := .ok (), uploadResult := .ok (),
    fileSize := 2048, elapsed := 3 }

def envUploadErr : PipelineEnv :=
  { envOk with uploadResult := .error "AccessDenied" }

def bucketRaceEnv : BucketEnv :=
  { existsResult := .ok false,
    makeResult := .error "BucketAlreadyOwnedByYou" }

lemma pyRoundFrac_le (num den B : ℕ) (h : num < den * B) :
    pyRoundFrac num den ≤ B := by
  have hq : num / den < B := Nat.div_lt_of_lt_mul (by omega)
  unfold pyRoundFrac
  split_ifs <;> omega

lemma pyRoundFrac_eval (den q r : ℕ) (hden : 0 < den) (hr : r < den) :
    pyRoundFrac (den * q + r) den =
      if den < 2 * r then q + 1
      else if 2 * r < den then q
      else if q % 2 = 0 then q else q + 1 := by
  have hdiv : (den * q + r) / den = q := by
    rw [Nat.mul_add_div hden, Nat.div_eq_of_lt hr, Nat.add_zero]
  have hmod : (den * q + r) % den = r := by
    rw [Nat.mul_add_mod, Nat.mod_eq_of_lt hr]
  simp [pyRoundFrac, hdiv, hmod]

lemma pyRoundFrac_approx (num den : ℕ) (hden : 0 < den) :
    2 * (den * pyRoundFrac num den) ≤ 2 * num + den ∧
      2 * num ≤ 2 * (den * pyRoundFrac num den) + den := by
  obtain ⟨q, r, hr, hqr⟩ : ∃ q r, r < den ∧ num = den * q + r :=
    ⟨num / den, num % den, Nat.mod_lt _ hden, (Nat.div_add_mod num den).symm⟩
  subst hqr
  rw [pyRoundFrac_eval den q r hden hr]
  have e1 : den * (q + 1) = den * q + den := by ring
  split_ifs <;> constructor <;> linarith [e1]

lemma int_fdiv_two_nonneg (a : ℤ) (ha : 0 ≤ a) : 0 ≤ a.fdiv 2 :=
  Int.fdiv_nonneg ha (by omega)

lemma containSize_cases (w h tw th : ℕ) :
    w * th = h * tw ∧ containSize w h tw th = (tw, th) ∨
    h * tw < w * th ∧ containSize w h tw th = (tw, pyRoundFrac (h * tw) w) ∨
    w * th < h * tw ∧ containSize w h tw th = (pyRoundFrac (w * th) h, th) := by
  unfold containSize
  split_ifs with h1 h2
  · exact Or.inl ⟨h1, rfl⟩
  · exact Or.inr (Or.inl ⟨h2, rfl⟩)
  · exact Or.inr (Or.inr ⟨by omega, rfl⟩)

lemma process_media_eq (w h sw sh ct : ℕ) :
    process_for_instagram w h sw sh true ct =
      { canvasW := sw, canvasH := sh, srcW := w, srcH := h,
        fgW := (containSize w h sw sh).1, fgH := (containSize w h sw sh).2,
        offX := ((sw : ℤ) - ((containSize w h sw sh).1 : ℤ)).fdiv 2,
        offY := ((sh : ℤ) - ((containSize w h sw sh).2 : ℤ)).fdiv 2 } := rfl

lemma process_nomedia_eq (w h sw sh ct : ℕ) :
    process_for_instagram w h sw sh false ct =
      { canvasW := sw, canvasH := sh, srcW := w,
        srcH := if ct < h then h - ct else h,
        fgW := (containSize w (if ct < h then h - ct else h) sw sh).1,
        fgH := (containSize w (if ct < h then h - ct else h) sw sh).2,
        offX := ((sw : ℤ) -
          ((containSize w (if ct < h then h - ct else h) sw sh).1 : ℤ)).fdiv 2,
        offY := ((sh : ℤ) -
          ((containSize w (if ct < h then h - ct else h) sw sh).2 : ℤ)).fdiv 2 }
    := rfl

lemma takeWhile_append_stop {p : Char → Bool} (u : List Char) (x : Char)
    (t : List Char) (hu : ∀ a ∈ u, p a = true) (hx : p x = false) :
    (u ++ x :: t).takeWhile p = u := by
  induction u with
  | nil => simp [List.takeWhile_cons_of_neg, hx]
  | cons a u ih =>
    have ha : p a = true := hu a (by simp)
    rw [List.cons_append, List.takeWhile_cons_of_pos ha,
      ih (fun b hb => hu b (by simp [hb]))]

lemma takeWhile_all {p : Char → Bool} (d : List Char)
    (h : ∀ a ∈ d, p a = true) : d.takeWhile p = d := by
  induction d with
  | nil => rfl
  | cons a d ih =>
    rw [List.takeWhile_cons_of_pos (h a (by simp)),
      ih (fun b hb => h b (by simp [hb]))]

lemma isPrefixOf_append_self (l t : List Char) :
    l.isPrefixOf (l ++ t) = true := by
  induction l with
  | nil => simp
  | cons a l ih => simp [List.isPrefixOf, ih]

lemma matchStatusAt_not_slash {c : Char} (l : List Char) (hc : ¬ c = '/') :
    matchStatusAt (c :: l) = none := by
  simp [matchStatusAt, hc]

lemma matchStatusAt_slash_nonword (x : Char) (l : List Char)
    (hx : isWordChar x = false) : matchStatusAt ('/' :: x :: l) = none := by
  have h1 : (x :: l).takeWhile isWordChar = [] := by
    simp [List.takeWhile_cons_of_neg, hx]
  simp [matchStatusAt, h1]

lemma matchStatusAt_slash_x_dot (l : List Char) :
    matchStatusAt ('/' :: 'x' :: '.' :: l) = none := by
  have h1 : ('x' :: '.' :: l).takeWhile isWordChar = ['x'] := by
    rw [List.takeWhile_cons_of_pos (by decide),
      List.takeWhile_cons_of_neg (by decide)]
  have h3 : statusLit.isPrefixOf ('.' :: l) = false := by
    have e : (('/' : Char) == '.') = false := by decide
    simp [statusLit, List.isPrefixOf, e]
  simp [matchStatusAt, h1, h3]

lemma matchStatusAt_hit (u d : List Char) (hu : u ≠ [])
    (hw : ∀ a ∈ u, isWordChar a = true) (hd : d ≠ [])
    (hdd : ∀ a ∈ d, a.isDigit = true) :
    matchStatusAt ('/' :: (u ++ (statusLit ++ d))) = some (u, d) := by
  have h1 : (u ++ (statusLit ++ d)).takeWhile isWordChar = u := by
    have e : statusLit ++ d =
        '/' :: ('s' :: 't' :: 'a' :: 't' :: 'u' :: 's' :: '/' :: d) := rfl
    rw [e]
    exact takeWhile_append_stop u '/' _ hw (by decide)
  have h2 : (u ++ (statusLit ++ d)).drop u.length = statusLit ++ d :=
    List.drop_left u (statusLit ++ d)
  have h3 : statusLit.isPrefixOf (statusLit ++ d) = true :=
    isPrefixOf_append_self statusLit d
  have h4 : (statusLit ++ d).drop 8 = d :=
    List.drop_left' (by rfl)
  have h5 : d.takeWhile Char.isDigit = d := takeWhile_all d hdd
  simp [matchStatusAt, h1, h2, h3, h4, h5, hu, hd]

lemma reSearch_step {c : Char} {l : List Char}
    (h : matchStatusAt (c :: l) = none) :
    reSearchStatus (c :: l) = reSearchStatus l := by
  simp [reSearchStatus, h]

lemma reSearch_url (u d : List Char) (hu : u ≠ [])
    (hw : ∀ a ∈ u, isWordChar a = true) (hd : d ≠ [])
    (hdd : ∀ a ∈ d, a.isDigit = true) :
    reSearchStatus (httpsXcom ++ (u ++ (statusLit ++ d))) = some (u, d) := by
  show reSearchStatus ('h' :: 't' :: 't' :: 'p' :: 's' :: ':' :: '/' :: '/' ::
    'x' :: '.' :: 'c' :: 'o' :: 'm' :: '/' :: (u ++ (statusLit ++ d)))
      = some (u, d)
  rw [reSearch_step (matchStatusAt_not_slash _ (by decide))]
  rw [reSearch_step (matchStatusAt_not_slash _ (by decide))]
  rw [reSearch_step (matchStatusAt_not_slash _ (by decide))]
  rw [reSearch_step (matchStatusAt_not_slash _ (by decide))]
  rw [reSearch_step (matchStatusAt_not_slash _ (by decide))]
  rw [reSearch_step (matchStatusAt_not_slash _ (by decide))]
  rw [reSearch_step (matchStatusAt_slash_nonword '/' _ (by decide))]
  rw [reSearch_step (matchStatusAt_slash_x_dot _)]
  rw [reSearch_step (matchStatusAt_not_slash _ (by decide))]
  rw [reSearch_step (matchStatusAt_not_slash _ (by decide))]
  rw [reSearch_step (matchStatusAt_not_slash _ (by decide))]
  rw [reSearch_step (matchStatusAt_not_slash _ (by decide))]
  rw [reSearch_step (matchStatusAt_not_slash _ (by decide))]
  have hm := matchStatusAt_hit u d hu hw hd hdd
  simp [reSearchStatus, hm]

lemma cleanup_deletions (rf : String → Bool) (p : String)
    (fs : String → Bool) :
    ∀ x ∈ (cleanup_temp_file rf p fs).2.1,
      x = p ∧ fs p = true ∧ rf p = false := by
  unfold cleanup_temp_file
  split_ifs with h1 h2 <;> simp_all

lemma cleanup_fs_false (rf : String → Bool) (p q : String)
    (fs : String → Bool) (h : fs q = false) :
    (cleanup_temp_file rf p fs).1 q = false := by
  unfold cleanup_temp_file
  split_ifs with h1 h2
  · exact h
  · by_cases hq : q = p
    · simp [hq]
    · simp [hq, h]
  · exact h

lemma cleanup_fs_ne (rf : String → Bool) (p q : String) (fs : String → Bool)
    (h : ¬ q = p) : (cleanup_temp_file rf p fs).1 q = fs q := by
  unfold cleanup_temp_file
  split_ifs <;> simp [h]

lemma cleanup_self_mem (rf : String → Bool) (p : String) (fs : String → Bool)
    (h : p ∈ (cleanup_temp_file rf p fs).2.1) :
    (cleanup_temp_file rf p fs).2.1 = [p] ∧
      (cleanup_temp_file rf p fs).1 p = false := by
  unfold cleanup_temp_file at h ⊢
  split_ifs at h ⊢ with h1 h2
  · simp at h
  · exact ⟨rfl, by simp⟩
  · simp at h

lemma runCleanup_not_exists (rf : String → Bool) (tasks : List String)
    (fs : String → Bool) (p : String) (h : fs p = false) :
    p ∉ (runCleanup rf tasks fs).2.1 ∧
      (runCleanup rf tasks fs).1 p = false := by
  induction tasks generalizing fs with
  | nil => simpa [runCleanup] using h
  | cons q rest ih =>
    have hfs1 := cleanup_fs_false rf q p fs h
    have ih2 := ih ((cleanup_temp_file rf q fs).1) hfs1
    constructor
    · simp only [runCleanup, List.mem_append]
      rintro (hmem | hmem)
      · obtain ⟨hpq, hq, -⟩ := cleanup_deletions rf q fs p hmem
        subst hpq
        rw [h] at hq
        exact Bool.noConfusion hq
      · exact ih2.1 hmem
    · simp only [runCleanup]
      exact ih2.2

lemma runCleanup_count_le_one (rf : String → Bool) (tasks : List String)
    (fs : String → Bool) (p : String) :
    ((runCleanup rf tasks fs).2.1).count p ≤ 1 := by
  induction tasks generalizing fs with
  | nil => simp [runCleanup]
  | cons q rest ih =>
    simp only [runCleanup, List.count_append]
    by_cases hmem : p ∈ (cleanup_temp_file rf q fs).2.1
    · obtain ⟨hpq, hq, hrf⟩ := cleanup_deletions rf q fs p hmem
      subst hpq
      obtain ⟨hsingle, hfalse⟩ := cleanup_self_mem rf p fs hmem
      have hnot := runCleanup_not_exists rf rest
        ((cleanup_temp_file rf p fs).1) p hfalse
      have h0 : ((runCleanup rf rest ((cleanup_temp_file rf p fs).1)).2.1).count
          p = 0 := List.count_eq_zero.mpr hnot.1
      rw [hsingle, h0]
      simp
    · have h0 : ((cleanup_temp_file rf q fs).2.1).count p = 0 :=
        List.count_eq_zero.mpr hmem
      have h1 := ih ((cleanup_temp_file rf q fs).1)
      omega

lemma runCleanup_deleted_rf_false (rf : String → Bool) (tasks : List String)
    (fs : String → Bool) (p : String)
    (h : p ∈ (runCleanup rf tasks fs).2.1) : rf p = false := by
  induction tasks generalizing fs with
  | nil => simp [runCleanup] at h
  | cons q rest ih =>
    simp only [runCleanup, List.mem_append] at h
    rcases h with h | h
    · obtain ⟨hpq, -, hrf⟩ := cleanup_deletions rf q fs p h
      subst hpq
      exact hrf
    · exact ih _ h

lemma runCleanup_warns (rf : String → Bool) (tasks : List String)
    (fs : String → Bool) (p : String) (hfs : fs p = true) (hrf : rf p = true)
    (hp : p ∈ tasks) :
    ("Failed to clean up " ++ p) ∈ (runCleanup rf tasks fs).2.2 := by
  induction tasks generalizing fs with
  | nil => cases hp
  | cons q rest ih =>
    simp only [runCleanup, List.mem_append]
    by_cases hpq : p = q
    · left
      subst hpq
      simp [cleanup_temp_file, hfs, hrf]
    · right
      have hrest : p ∈ rest := by
        rcases List.mem_cons.mp hp with h | h
        · exact absurd h hpq
        · exact h
      have hfs1 : (cleanup_temp_file rf q fs).1 p = fs p :=
        cleanup_fs_ne rf q p fs hpq
      exact ih ((cleanup_temp_file rf q fs).1) (by rw [hfs1]; exact hfs) hrest

lemma capture_tweet_tasks_error (cfg : MinioConfig)
    (req : TweetCaptureRequest) (env : PipelineEnv) (e : String)
    (h : env.captureResult = .error e) :
    (capture_tweet cfg req env).cleanupTasks =
      [env.tmpDir ++ "/temp_" ++ env.tempHex ++ ".png"] := by
  simp [capture_tweet, h]

lemma capture_tweet_tasks_ok (cfg : MinioConfig) (req : TweetCaptureRequest)
    (env : PipelineEnv) (h : env.captureResult = .ok ()) :
    (capture_tweet cfg req env).cleanupTasks =
      [env.tmpDir ++ "/temp_" ++ env.tempHex ++ ".png",
       env.tmpDir ++ "/" ++ env.finalHex ++ ".png"] := by
  cases hproc : env.processResult with
  | error e => simp [capture_tweet, h, hproc]
  | ok u =>
    cases hupl : env.uploadResult with
    | error e => simp [capture_tweet, upload_to_minio, h, hproc, hupl]
    | ok u2 => simp [capture_tweet, upload_to_minio, h, hproc, hupl]

lemma capture_tweet_resp_capture_error (cfg : MinioConfig)
    (req : TweetCaptureRequest) (env : PipelineEnv) (e : String)
    (h : env.captureResult = .error e) :
    (capture_tweet cfg req env).response = .ok
      { success := false, message := "Error: " ++ e,
        processing_time := some env.elapsed } := by
  simp [capture_tweet, h]

lemma capture_tweet_resp_process_error (cfg : MinioConfig)
    (req : TweetCaptureRequest) (env : PipelineEnv) (e : String)
    (hc : env.captureResult = .ok ()) (hp : env.processResult = .error e) :
    (capture_tweet cfg req env).response = .ok
      { success := false, message := "Error: " ++ e,
        processing_time := some env.elapsed } := by
  simp [capture_tweet, hc, hp]

lemma capture_tweet_resp_upload_error (cfg : MinioConfig)
    (req : TweetCaptureRequest) (env : PipelineEnv) (e : String)
    (hc : env.captureResult = .ok ()) (hp : env.processResult = .ok ())
    (hu : env.uploadResult = .error e) :
    (capture_tweet cfg req env).response = .ok
      { success := false,
        message := "Error: " ++
          pyStr (.httpExc 500 ("Failed to upload file: " ++ e)),
        processing_time := some env.elapsed } := by
  simp [capture_tweet, upload_to_minio, hc, hp, hu]

lemma capture_tweet_resp_success (cfg : MinioConfig)
    (req : TweetCaptureRequest) (env : PipelineEnv)
    (hc : env.captureResult = .ok ()) (hp : env.processResult = .ok ())
    (hu : env.uploadResult = .ok ()) :
    (capture_tweet cfg req env).response = .ok
      { success := true, message := "Tweet captured successfully",
        file_url := some (pyReplaceStr
          (cfg.publicEndpoint ++ "/" ++ cfg.bucket ++ "/" ++
            generate_filename req.url req.filename env.timestamp env.uuidName)
          "storage" "storage-api"),
        filename := some (generate_filename req.url req.filename env.timestamp
          env.uuidName),
        file_size := some env.fileSize,
        processing_time := some env.elapsed } := by
  simp [capture_tweet, upload_to_minio, hc, hp, hu]

/-- C1: evaluation of the handler at a request whose capture and
normalization succeed but whose upload raises an `S3Error`.  The
`HTTPException(500, ...)` raised by `upload_to_minio` is itself an
`Exception`, so the handler's blanket `except Exception` converts it into
a normal HTTP 200 body with `success=False` — contradicting the claim
(and the spec), which require a transport-level HTTP 500.  The
`raise HTTPException(status_code=500, ...)` in `upload_to_minio` shows
the intended behavior; the catch-all defeats it, so this is a code bug. -/
theorem c1_storage_error_response :
    (capture_tweet cfgLocal reqBase envUploadErr).response =
      HttpResult.ok
        { success := false,
          message := "Error: 500: Failed to upload file: AccessDenied",
          processing_time := some 3 } ∧
    ∀ s d, (capture_tweet cfgLocal reqBase envUploadErr).response ≠
      HttpResult.httpError s d := by
  have h1 : (capture_tweet cfgLocal reqBase envUploadErr).response =
      HttpResult.ok
        { success := false,
          message := "Error: 500: Failed to upload file: AccessDenied",
          processing_time := some 3 } := by decide
  refine ⟨h1, ?_⟩
  intro s d hcon
  rw [h1] at hcon
  exact HttpResult.noConfusion hcon

/-- C2: on every exit of the handler the registered temp paths are
exactly the raw capture path (always) plus the normalized path (once the
capture call returned), each registered once; running the deferred
cleanup deletes each path at most once; a removal failure performs no
deletion and logs a warning instead of raising; and the cleanup outcome
cannot alter the HTTP response (the response is computed before the
tasks run and `cleanup_temp_file` is a total function). -/
theorem c2_cleanup_coordinator :
    ∀ (cfg : MinioConfig) (req : TweetCaptureRequest) (env : PipelineEnv)
      (rf fs : String → Bool),
      (∀ e : String, env.captureResult = .error e →
        (capture_tweet cfg req env).cleanupTasks =
          [env.tmpDir ++ "/temp_" ++ env.tempHex ++ ".png"]) ∧
      (env.captureResult = .ok () →
        (capture_tweet cfg req env).cleanupTasks =
          [env.tmpDir ++ "/temp_" ++ env.tempHex ++ ".png",
           env.tmpDir ++ "/" ++ env.finalHex ++ ".png"]) ∧
      ((env.tmpDir ++ "/temp_" ++ env.tempHex ++ ".png") ∈
        (capture_tweet cfg req env).cleanupTasks) ∧
      (∀ p : String,
        ((runCleanup rf (capture_tweet cfg req env).cleanupTasks fs).2.1).count
          p ≤ 1) ∧
      (∀ p : String, rf p = true →
        p ∉ (runCleanup rf (capture_tweet cfg req env).cleanupTasks fs).2.1) ∧
      (∀ p : String, rf p = true → fs p = true →
        p ∈ (capture_tweet cfg req env).cleanupTasks →
        ("Failed to clean up " ++ p) ∈
          (runCleanup rf (capture_tweet cfg req env).cleanupTasks fs).2.2) := by
  intro cfg req env rf fs
  refine ⟨fun e he => capture_tweet_tasks_error cfg req env e he,
    fun hc => capture_tweet_tasks_ok cfg req env hc, ?_,
    fun p => runCleanup_count_le_one rf _ fs p, ?_,
    fun p hrf hfs hp => runCleanup_warns rf _ fs p hfs hrf hp⟩
  · cases henv : env.captureResult with
    | error e =>
      rw [capture_tweet_tasks_error cfg req env e henv]
      simp
    | ok u =>
      cases u
      rw [capture_tweet_tasks_ok cfg req env henv]
      simp
  · intro p hrf hmem
    have hfalse := runCleanup_deleted_rf_false rf _ fs p hmem
    rw [hrf] at hfalse
    exact Bool.noConfusion hfalse

/-- Witness for C2: with the all-success oracle, both temp paths are
registered, and running cleanup on a file system containing both deletes
each exactly once with no warnings. -/
theorem c2_cleanup_coordinator_witness :
    (capture_tweet cfgLocal reqBase envOk).cleanupTasks =
      ["/tmp/temp_aa.png", "/tmp/bb.png"] ∧
    ((runCleanup (fun _ => false)
        (capture_tweet cfgLocal reqBase envOk).cleanupTasks
        (fun _ => true)).2.1).count "/tmp/temp_aa.png" ≤ 1 := by
  have h := c2_cleanup_coordinator cfgLocal reqBase envOk
    (fun _ => false) (fun _ => true)
  have h2 := h.2.1 rfl
  constructor
  · rw [h2]
    decide
  · exact h.2.2.2.1 "/tmp/temp_aa.png"

/-- C3 counterexample: with the all-media-hide flag set and all five
individual media-hide flags clear, the claim's primary phrasing
("has_media is true unless hide-all AND all five individual flags are
set") predicts `true`, but the pipeline computes `has_media = False`
(it requires the hide-all flag to be off). -/
theorem c3_counterexample :
    hasMediaClaimedC3 reqAllHide = true ∧
    (capture_tweet cfgLocal reqAllHide envOk).hasMediaArg = some false := by
  exact ⟨by decide, by decide⟩

/-- C3 (amended): the pipeline invokes the normalizer with
`has_media = true` exactly when the hide-all flag is off AND at least one
of the five individual media-hide flags is not set (equivalently: not
every individual flag is set) — the claim's second, consistent
phrasing. -/
theorem c3_media_decision :
    ∀ (cfg : MinioConfig) (req : TweetCaptureRequest) (env : PipelineEnv),
      has_media req = mediaVisibleSpec req ∧
      (env.captureResult = .ok () →
        (capture_tweet cfg req env).hasMediaArg =
          some (mediaVisibleSpec req)) := by
  intro cfg req env
  have hb : has_media req = mediaVisibleSpec req := by
    unfold has_media mediaVisibleSpec
    cases req.hide_all_medias <;> cases req.hide_photos <;>
      cases req.hide_videos <;> cases req.hide_gifs <;>
      cases req.hide_quotes <;> cases req.hide_link_previews <;> rfl
  refine ⟨hb, ?_⟩
  intro hc
  cases hproc : env.processResult with
  | error e => simp [capture_tweet, hc, hproc, hb]
  | ok u =>
    cases hupl : env.uploadResult with
    | error e => simp [capture_tweet, upload_to_minio, hc, hproc, hupl, hb]
    | ok u2 => simp [capture_tweet, upload_to_minio, hc, hproc, hupl, hb]

/-- Witness for C3 at a concrete request with all media flags clear. -/
theorem c3_media_decision_witness :
    (capture_tweet cfgLocal reqBase envOk).hasMediaArg = some true := by
  have h := (c3_media_decision cfgLocal reqBase envOk).2 rfl
  rw [h]
  decide

/-- C4 counterexample: with public endpoint `http://storage:9000` and an
object key containing the substring `storage` (custom name `storage_x`),
the rewrite also hits the object-key segment: the returned URL's key
segment is `storage-api_x_...` instead of the claim's
host-only-substitution result `storage_x_...`. -/
theorem c4_counterexample :
    (capture_tweet cfgStorage reqStorageName envOk).response = .ok
      { success := true, message := "Tweet captured successfully",
        file_url := some (String.mk
          ("http://storage-api:9000/tweetcaptures/" ++
            "storage-api_x_20240101_120000_abcd1234.png").data),
        filename := some "storage_x_20240101_120000_abcd1234.png",
        file_size := some 2048, processing_time := some 3 } ∧
    ¬ ("http://storage-api:9000/tweetcaptures/" ++
        "storage-api_x_20240101_120000_abcd1234.png") =
      ("http://storage-api:9000/tweetcaptures/" ++
        "storage_x_20240101_120000_abcd1234.png") := by
  exact ⟨by decide, by decide⟩

/-- C4 (amended): on every successful publish, the returned `file_url` is
the upload URL with every occurrence of the substring `storage` replaced
by `storage-api` — a single global string substitution over the whole URL
(host, bucket and object-key segments alike), not a substitution
restricted to the authority/host segment. -/
theorem c4_rewrite_global :
    ∀ (cfg : MinioConfig) (req : TweetCaptureRequest) (env : PipelineEnv),
      env.captureResult = .ok () → env.processResult = .ok () →
      env.uploadResult = .ok () →
      (capture_tweet cfg req env).response = .ok
        { success := true, message := "Tweet captured successfully",
          file_url := some (pyReplaceStr
            (cfg.publicEndpoint ++ "/" ++ cfg.bucket ++ "/" ++
              generate_filename req.url req.filename env.timestamp
                env.uuidName)
            "storage" "storage-api"),
          filename := some (generate_filename req.url req.filename
            env.timestamp env.uuidName),
          file_size := some env.fileSize,
          processing_time := some env.elapsed } :=
  fun cfg req env hc hp hu => capture_tweet_resp_success cfg req env hc hp hu

/-- Witness for C4: concrete successful publish with the `storage` host;
the substitution applies to the host and leaves the `@user...` key (which
does not contain the substring) unchanged. -/
theorem c4_rewrite_global_witness :
    (capture_tweet cfgStorage reqBase envOk).response = .ok
      { success := true, message := "Tweet captured successfully",
        file_url := some
          "http://storage-api:9000/tweetcaptures/@user_123_20240101_120000.png",
        filename := some "@user_123_20240101_120000.png",
        file_size := some 2048, processing_time := some 3 } := by
  have h := c4_rewrite_global cfgStorage reqBase envOk rfl rfl rfl
  rw [h]
  decide

/-- C5: a failure of the capture stage, or of the normalization stage,
yields a normal HTTP 200 response whose body has `success=false`, the
message `"Error: " + str(e)` (always non-empty), and a populated
processing time; it is never surfaced as a transport-level error. -/
theorem c5_soft_failure :
    ∀ (cfg : MinioConfig) (req : TweetCaptureRequest) (env : PipelineEnv)
      (e : String),
      (capture_tweet cfg req
          { env with captureResult := .error e }).response =
        HttpResult.ok
          { success := false, message := "Error: " ++ e,
            processing_time := some env.elapsed } ∧
      (capture_tweet cfg req
          { env with
            captureResult := .ok (), processResult := .error e }).response =
        HttpResult.ok
          { success := false, message := "Error: " ++ e,
            processing_time := some env.elapsed } ∧
      0 < ("Error: " ++ e).length := by
  intro cfg req env e
  refine ⟨capture_tweet_resp_capture_error cfg req _ e rfl,
    capture_tweet_resp_process_error cfg req _ e rfl rfl, ?_⟩
  rw [String.length_append]
  have h7 : "Error: ".length = 7 := rfl
  omega

/-- C6: for every source `(w,h)` with media present and target 1080×1350,
the canvas is exactly 1080×1350, the contained foreground satisfies
`fgW ≤ 1080` and `fgH ≤ 1350`, the paste offsets are the floor-division
centering `((1080−fgW)//2, (1350−fgH)//2)` and are nonnegative, the
foreground is the source scaled by `min(1080/w, 1350/h)` preserving the
aspect ratio up to PIL's half-pixel rounding on the non-binding axis, and
in particular an 800×600 source yields a 1080×810 foreground at offset
(0, 270). -/
theorem c6_contain_fit :
    (∀ w h crop_top : ℕ, ∀ r : NormResult, 1 ≤ w → 1 ≤ h →
        r = process_for_instagram w h 1080 1350 true crop_top →
        (r.canvasW = 1080 ∧ r.canvasH = 1350) ∧
        (r.fgW ≤ 1080 ∧ r.fgH ≤ 1350) ∧
        (r.offX = ((1080 : ℤ) - (r.fgW : ℤ)).fdiv 2 ∧
         r.offY = ((1350 : ℤ) - (r.fgH : ℤ)).fdiv 2 ∧
         0 ≤ r.offX ∧ 0 ≤ r.offY) ∧
        (w * 1350 = h * 1080 ∧ r.fgW = 1080 ∧ r.fgH = 1350 ∨
         h * 1080 < w * 1350 ∧ r.fgW = 1080 ∧
           2 * (w * r.fgH) ≤ 2 * (h * 1080) + w ∧
           2 * (h * 1080) ≤ 2 * (w * r.fgH) + w ∨
         w * 1350 < h * 1080 ∧ r.fgH = 1350 ∧
           2 * (h * r.fgW) ≤ 2 * (w * 1350) + h ∧
           2 * (w * 1350) ≤ 2 * (h * r.fgW) + h)) ∧
    process_for_instagram 800 600 1080 1350 true 10 =
      { canvasW := 1080, canvasH := 1350, srcW := 800, srcH := 600,
        fgW := 1080, fgH := 810, offX := 0, offY := 270 } := by
  constructor
  · intro w h ct r hw hh hr
    subst hr
    rcases containSize_cases w h 1080 1350 with ⟨hEq, hcs⟩ | ⟨hLt, hcs⟩ |
      ⟨hGt, hcs⟩
    · have hc1 : (containSize w h 1080 1350).1 = 1080 := by rw [hcs]
      have hc2 : (containSize w h 1080 1350).2 = 1350 := by rw [hcs]
      rw [process_media_eq, hc1, hc2]
      refine ⟨⟨rfl, rfl⟩, ⟨le_refl _, le_refl _⟩, ⟨rfl, rfl, ?_, ?_⟩, ?_⟩
      · exact int_fdiv_two_nonneg ((((1080 : ℕ)) : ℤ) - (((1080 : ℕ)) : ℤ))
          (by omega)
      · exact int_fdiv_two_nonneg ((((1350 : ℕ)) : ℤ) - (((1350 : ℕ)) : ℤ))
          (by omega)
      · exact Or.inl ⟨hEq, rfl, rfl⟩
    · have hc1 : (containSize w h 1080 1350).1 = 1080 := by rw [hcs]
      have hc2 : (containSize w h 1080 1350).2 = pyRoundFrac (h * 1080) w := by
        rw [hcs]
      have hle : pyRoundFrac (h * 1080) w ≤ 1350 := pyRoundFrac_le _ _ _ hLt
      have happ := pyRoundFrac_approx (h * 1080) w (by omega)
      rw [process_media_eq, hc1, hc2]
      refine ⟨⟨rfl, rfl⟩, ⟨le_refl _, hle⟩, ⟨rfl, rfl, ?_, ?_⟩, ?_⟩
      · exact int_fdiv_two_nonneg ((((1080 : ℕ)) : ℤ) - (((1080 : ℕ)) : ℤ))
          (by omega)
      · exact int_fdiv_two_nonneg
          ((((1350 : ℕ)) : ℤ) - ((pyRoundFrac (h * 1080) w : ℕ) : ℤ)) (by omega)
      · exact Or.inr (Or.inl ⟨hLt, rfl, happ.1, happ.2⟩)
    · have hc1 : (containSize w h 1080 1350).1 = pyRoundFrac (w * 1350) h := by
        rw [hcs]
      have hc2 : (containSize w h 1080 1350).2 = 1350 := by rw [hcs]
      have hle : pyRoundFrac (w * 1350) h ≤ 1080 := pyRoundFrac_le _ _ _ hGt
      have happ := pyRoundFrac_approx (w * 1350) h (by omega)
      rw [process_media_eq, hc1, hc2]
      refine ⟨⟨rfl, rfl⟩, ⟨hle, le_refl _⟩, ⟨rfl, rfl, ?_, ?_⟩, ?_⟩
      · exact int_fdiv_two_nonneg
          ((((1080 : ℕ)) : ℤ) - ((pyRoundFrac (w * 1350) h : ℕ) : ℤ)) (by omega)
      · exact int_fdiv_two_nonneg ((((1350 : ℕ)) : ℤ) - (((1350 : ℕ)) : ℤ))
          (by omega)
      · exact Or.inr (Or.inr ⟨hGt, rfl, happ.1, happ.2⟩)
  · decide

/-- Witness for C6 at the concrete 800×600 source of the spec's
end-to-end scenario. -/
theorem c6_contain_fit_witness :
    (process_for_instagram 800 600 1080 1350 true 10).canvasW = 1080 ∧
    (process_for_instagram 800 600 1080 1350 true 10).fgW ≤ 1080 ∧
    (process_for_instagram 800 600 1080 1350 true 10).fgH ≤ 1350 := by
  have h := c6_contain_fit.1 800 600 10
    (process_for_instagram 800 600 1080 1350 true 10)
    (by decide) (by decide) rfl
  exact ⟨h.1.1, h.2.1.1, h.2.1.2⟩

/-- C7: in the non-media path, the normalizer crops exactly `crop_top`
rows from the top when `crop_top < h` and leaves the image unmodified
when `crop_top ≥ h`, so the region it fits is never of zero or negative
height; the contain-fit then operates on the cropped dimensions. -/
theorem c7_crop_guard :
    ∀ w h crop_top : ℕ, ∀ r : NormResult,
      r = process_for_instagram w h 1080 1350 false crop_top →
      (h ≤ crop_top → r.srcW = w ∧ r.srcH = h) ∧
      (crop_top < h → r.srcW = w ∧ r.srcH = h - crop_top) ∧
      (1 ≤ h → 1 ≤ r.srcH) ∧
      (r.fgW, r.fgH) = containSize r.srcW r.srcH 1080 1350 := by
  intro w h ct r hr
  subst hr
  rw [process_nomedia_eq]
  refine ⟨?_, ?_, ?_, rfl⟩
  · intro hh
    refine ⟨rfl, ?_⟩
    show (if ct < h then h - ct else h) = h
    rw [if_neg (by omega)]
  · intro hh
    refine ⟨rfl, ?_⟩
    show (if ct < h then h - ct else h) = h - ct
    rw [if_pos hh]
  · intro hh
    show 1 ≤ (if ct < h then h - ct else h)
    by_cases hc : ct < h
    · rw [if_pos hc]; omega
    · rw [if_neg hc]; omega

/-- Witness for C7: a 700×500 source with `crop_top = 10` is cropped to
700×490, and with `crop_top = 600 ≥ 500` is left unmodified. -/
theorem c7_crop_guard_witness :
    (process_for_instagram 700 500 1080 1350 false 10).srcH = 490 ∧
    (process_for_instagram 700 500 1080 1350 false 600).srcH = 500 := by
  have h1 := c7_crop_guard 700 500 10
    (process_for_instagram 700 500 1080 1350 false 10) rfl
  have h2 := c7_crop_guard 700 500 600
    (process_for_instagram 700 500 1080 1350 false 600) rfl
  exact ⟨by simpa using (h1.2.1 (by decide)).2, (h2.1 (by decide)).2⟩

/-- C8 (amended): the key generator is total and produces: with a
non-empty custom name, `<custom>_<timestamp>_<uuid8>.png`; with no custom
name or an empty one, `@<user>_<id>_<timestamp>.png` when the URL matches
`/<username>/status/<numeric-id>` — in particular for every URL of shape
`https://x.com/<user>/status/<digits>` with `<user>` a non-empty word-
character run and `<digits>` a non-empty digit run — and otherwise
`tweet_<timestamp>_<uuid8>.png`. -/
theorem c8_key_generator :
    ∀ (url : List Char) (ts rand : String),
      (∀ c : String, ¬ c = "" →
        generate_filename url (some c) ts rand =
          c ++ "_" ++ ts ++ "_" ++ rand.take 8 ++ ".png") ∧
      (∀ u d : List Char, reSearchStatus url = some (u, d) →
        generate_filename url none ts rand =
          "@" ++ String.mk u ++ "_" ++ String.mk d ++ "_" ++ ts ++ ".png") ∧
      (reSearchStatus url = none →
        generate_filename url none ts rand =
          "tweet_" ++ ts ++ "_" ++ rand.take 8 ++ ".png") ∧
      (∀ u d : List Char, u ≠ [] → (∀ a ∈ u, isWordChar a = true) →
        d ≠ [] → (∀ a ∈ d, a.isDigit = true) →
        generate_filename (httpsXcom ++ (u ++ (statusLit ++ d))) none ts rand =
          "@" ++ String.mk u ++ "_" ++ String.mk d ++ "_" ++ ts ++ ".png") := by
  intro url ts rand
  refine ⟨?_, ?_, ?_, ?_⟩
  · intro c hc
    simp [generate_filename, hc]
  · intro u d hm
    simp [generate_filename, generate_filename_fallback, hm]
  · intro hm
    simp [generate_filename, generate_filename_fallback, hm]
  · intro u d hu hw hd hdd
    have hm := reSearch_url u d hu hw hd hdd
    simp [generate_filename, generate_filename_fallback, hm]

/-- C8 counterexample: with the empty custom name `""` supplied (a legal
value of the optional custom-name field), the claimed custom-name key
shape `<custom>_<timestamp>_<8-hex>.png` — here
`_20240101_120000_abcd1234.png` — is not produced: Python truthiness
sends the empty string down the URL-matching path, yielding
`@user_123_20240101_120000.png`. -/
theorem c8_counterexample :
    generate_filename ("https://x.com/user/status/123".data) (some "")
        "20240101_120000" "abcd1234-ef56-7890" =
      "@user_123_20240101_120000.png" ∧
    ¬ generate_filename ("https://x.com/user/status/123".data) (some "")
        "20240101_120000" "abcd1234-ef56-7890" =
      "_20240101_120000_abcd1234.png" := by
  constructor
  · decide
  · decide

/-- Witness for C8 at concrete inputs: a non-empty custom name, and a
matching URL with no custom name. -/
theorem c8_key_generator_witness :
    generate_filename ("https://x.com/a/status/9".data) (some "pic")
        "ts" "0123456789abcdef" = "pic_ts_01234567.png" ∧
    generate_filename ("https://x.com/a/status/9".data) none
        "ts" "0123456789abcdef" = "@a_9_ts.png" := by
  have h := c8_key_generator ("https://x.com/a/status/9".data) "ts"
    "0123456789abcdef"
  constructor
  · rw [h.1 "pic" (by decide)]
    decide
  · have e : httpsXcom ++ (['a'] ++ (statusLit ++ ['9'])) =
        "https://x.com/a/status/9".data := by decide
    have h4 := h.2.2.2 ['a'] ['9'] (by decide) (by decide) (by decide)
      (by decide)
    rw [e] at h4
    rw [h4]
    decide

/-- C9 counterexample: when the existence check reports the bucket absent
and `make_bucket` then raises an "already exists" `S3Error` (the
check-then-create race), `ensure_bucket_exists` re-raises the error
instead of treating it as success as the claim states. -/
theorem c9_counterexample :
    ensure_bucket_exists bucketRaceEnv = .error "BucketAlreadyOwnedByYou" ∧
    ¬ ensure_bucket_exists bucketRaceEnv = .ok () := by
  refine ⟨rfl, fun hcon => ?_⟩
  have h1 : ensure_bucket_exists bucketRaceEnv =
      (.error "BucketAlreadyOwnedByYou" : Except String Unit) := rfl
  rw [h1] at hcon
  exact Except.noConfusion hcon

/-- C9 (amended): the startup bucket check is an idempotent
check-then-create when the check itself reports the bucket as existing
(no error, no creation); but any `S3Error` raised by the check or by the
creation — including an "already exists" race error — is logged and
re-raised, failing startup, rather than being treated as success. -/
theorem c9_bucket_check :
    ∀ env : BucketEnv,
      (env.existsResult = .ok true → ensure_bucket_exists env = .ok ()) ∧
      (env.existsResult = .ok false → env.makeResult = .ok () →
        ensure_bucket_exists env = .ok ()) ∧
      (∀ e, env.existsResult = .ok false → env.makeResult = .error e →
        ensure_bucket_exists env = .error e) ∧
      (∀ e, env.existsResult = .error e →
        ensure_bucket_exists env = .error e) := by
  intro env
  refine ⟨?_, ?_, ?_, ?_⟩
  · intro h
    simp [ensure_bucket_exists, h]
  · intro h1 h2
    simp [ensure_bucket_exists, h1, h2]
  · intro e h1 h2
    simp [ensure_bucket_exists, h1, h2]
  · intro e h1
    simp [ensure_bucket_exists, h1]

/-- Witness for C9: a bucket reported as existing yields success. -/
theorem c9_bucket_check_witness :
    ensure_bucket_exists { existsResult := .ok true, makeResult := .ok () } =
      .ok () := by
  exact (c9_bucket_check _).1 rfl

/-- C10: every HTTP 200 response body with `success=false` produced by
the handler has `file_url`, `filename` and `file_size` all absent
(`None`), and a populated `processing_time` — a caller never receives a
partial artifact reference on failure. -/
theorem c10_failure_fields :
    ∀ (cfg : MinioConfig) (req : TweetCaptureRequest) (env : PipelineEnv)
      (body : TweetCaptureResponse),
      (capture_tweet cfg req env).response = .ok body →
      body.success = false →
      body.file_url = none ∧ body.filename = none ∧ body.file_size = none ∧
        body.processing_time = some env.elapsed := by
  intro cfg req env body hres hsucc
  cases henv : env.captureResult with
  | error e =>
    have hv := capture_tweet_resp_capture_error cfg req env e henv
    rw [hres] at hv
    injection hv with hb
    subst hb
    exact ⟨rfl, rfl, rfl, rfl⟩
  | ok u =>
    cases u
    cases hproc : env.processResult with
    | error e =>
      have hv := capture_tweet_resp_process_error cfg req env e henv hproc
      rw [hres] at hv
      injection hv with hb
      subst hb
      exact ⟨rfl, rfl, rfl, rfl⟩
    | ok u2 =>
      cases u2
      cases hupl : env.uploadResult with
      | error e =>
        have hv := capture_tweet_resp_upload_error cfg req env e henv hproc
          hupl
        rw [hres] at hv
        injection hv with hb
        subst hb
        exact ⟨rfl, rfl, rfl, rfl⟩
      | ok u3 =>
        cases u3
        have hv := capture_tweet_resp_success cfg req env henv hproc hupl
        rw [hres] at hv
        injection hv with hb
        subst hb
        exact absurd hsucc (by simp)

/-- Witness for C10 at a concrete capture failure. -/
theorem c10_failure_fields_witness :
    ({ success := false, message := "Error: timeout",
        processing_time := some 3 } : TweetCaptureResponse).file_url = none ∧
    ({ success := false, message := "Error: timeout",
        processing_time := some 3 } : TweetCaptureResponse).filename = none ∧
    ({ success := false, message := "Error: timeout",
        processing_time := some 3 } : TweetCaptureResponse).file_size =
      none ∧
    ({ success := false, message := "Error: timeout",
        processing_time := some 3 } : TweetCaptureResponse).processing_time =
      some 3 := by
  have h := c10_failure_fields cfgLocal reqBase
    { envOk with captureResult := .error "timeout" }
    { success := false, message := "Error: timeout",
      processing_time := some 3 } (by decide) rfl
  exact h

end TweetCap
